import Mathlib

/-!
Verification of the event-relay base class `TrackAbstract`
(src/EditorUI/TrackAbstract.py) of the snare repository.

The class declares 30 Qt signals (19 travelling upward, from a leaf layer
toward the tree root, and 11 travelling downward, from the root toward the
leaves) and one default slot per signal.  Every default slot simply re-emits
the payload it received on the same-kind signal.  The constructor stores the
initial snapshot fields and, when a `root` object is supplied, connects every
upward signal of the new node to the same-kind slot of the root and every
downward signal of the root to the same-kind slot of the new node
(lines 76-148 of the source).

The shallow embedding below translates:
  * the set of signals into `EventKind` with a `direction`,
  * the per-signal payload types into `PayloadTy`,
  * the stored attributes into the structure `TrackAbstract`
    (the source assigns `name`, `state`, `selections`, `marks`,
    `cursorposition`, `height`, `width`, `smptopix`, `zoom` and `root`;
    the constructor parameter `analysisTypes` is accepted but never stored,
    exactly as in the source),
  * each `slo_*` method into a pure function returning the (unchanged)
    receiver together with the list of signal emissions it performs,
  * the connection statements of `__init__` into `initConnections`,
  * synchronous Qt signal dispatch along a constructed chain (for upward
    events) and tree (for downward events) into explicit recursive
    delivery functions.

Qt payload classes that this file never inspects (mouse events, key events,
rectangles, waveform objects, the selection dictionary, and the float zoom
factors) are embedded as opaque atoms; the code only passes them along.
-/

/-- Stand-in for QGraphicsSceneMouseEvent; opaque to this file. -/
abbrev MouseEvt := Nat

/-- Stand-in for QKeyEvent; opaque to this file. -/
abbrev KeyEvt := Nat

/-- Stand-in for QRectF; opaque to this file. -/
abbrev RectF := Nat

/-- Stand-in for the float payloads (zoom factor, position); never computed on here. -/
abbrev FloatVal := Nat

/-- Stand-in for a Waveform object; opaque to this file. -/
abbrev WaveformObj := Nat

/-- Stand-in for the selection dictionary payload of sig_setSelection; opaque here. -/
abbrev SelDict := Nat

/-- The 30 signal/slot kinds declared on TrackAbstract (source lines 36-74),
one constructor per `sig_*` declaration, in source order. -/
inductive EventKind where
  | mousePress
  | mouseRelease
  | mouseMove
  | mouseDoubleClick
  | keyEnter
  | keyRelease
  | playpause
  | zoomIn
  | zoomOut
  | analyze
  | finishSelection
  | editSelection
  | selectionChange
  | skipForward
  | skipBackward
  | delete
  | requestMark
  | requestWaveform
  | viewChanged
  | redraw
  | startSelection
  | moveSelection
  | endSelection
  | enableSelection
  | setSelection
  | setMark
  | addWaveform
  | setView
  | update
  | setPlaying
  deriving DecidableEq

/-- Travel direction of an event kind. -/
inductive Dir where
  | up
  | down
  deriving DecidableEq

/-- Direction of each kind, read off the wiring of `__init__`: the signals
connected from self to root (source lines 113-135) travel up, the signals
connected from root to self (source lines 138-148) travel down. -/
def direction : EventKind → Dir
  | .mousePress => .up
  | .mouseRelease => .up
  | .mouseMove => .up
  | .mouseDoubleClick => .up
  | .keyEnter => .up
  | .keyRelease => .up
  | .playpause => .up
  | .zoomIn => .up
  | .zoomOut => .up
  | .analyze => .up
  | .finishSelection => .up
  | .editSelection => .up
  | .selectionChange => .up
  | .skipForward => .up
  | .skipBackward => .up
  | .delete => .up
  | .requestMark => .up
  | .requestWaveform => .up
  | .viewChanged => .up
  | .redraw => .down
  | .startSelection => .down
  | .moveSelection => .down
  | .endSelection => .down
  | .enableSelection => .down
  | .setSelection => .down
  | .setMark => .down
  | .addWaveform => .down
  | .setView => .down
  | .update => .down
  | .setPlaying => .down

/-- Payload type carried by each signal, from the `pyqtSignal(...)`
declarations (source lines 38-74). -/
@[reducible] def PayloadTy : EventKind → Type
  | .mousePress => MouseEvt
  | .mouseRelease => MouseEvt
  | .mouseMove => MouseEvt
  | .mouseDoubleClick => MouseEvt
  | .keyEnter => KeyEvt
  | .keyRelease => KeyEvt
  | .playpause => Unit
  | .zoomIn => Unit
  | .zoomOut => Unit
  | .analyze => Unit
  | .finishSelection => Unit
  | .editSelection => Unit
  | .selectionChange => String × String
  | .skipForward => Unit
  | .skipBackward => Unit
  | .delete => Unit
  | .requestMark => Unit
  | .requestWaveform => Int × Int × Int
  | .viewChanged => RectF
  | .redraw => FloatVal
  | .startSelection => MouseEvt
  | .moveSelection => MouseEvt
  | .endSelection => MouseEvt
  | .enableSelection => Bool
  | .setSelection => String × String × SelDict × String
  | .setMark => Int
  | .addWaveform => WaveformObj
  | .setView => RectF
  | .update => FloatVal
  | .setPlaying => Bool

/-- A signal emission: an event kind together with its payload. -/
abbrev Emission := Sigma PayloadTy

/-- The attributes a TrackAbstract object holds after `__init__`
(source lines 96-111).  The constructor parameter `analysisTypes` has no
corresponding field because the source never assigns it to `self`.
The `root` field stores the object reference to the parent (an opaque
object identity here), or `none` for the tree root. -/
structure TrackAbstract where
  name : String
  state : String
  selections : List String
  marks : List Int
  cursorposition : Int
  height : Int
  width : Int
  smptopix : Int
  zoom : Int
  root : Option Nat
  deriving DecidableEq

/-- The attribute assignments of `__init__` (source lines 94-111): every
parameter except `analysisTypes` is stored; `self.root` is `None` unless a
root object was supplied.  The connection statements guarded by `if root:`
are embedded separately as `initConnections`. -/
def TrackAbstract.init (name : String) (state : String) (selections : List String)
    (analysisTypes : List String) (marks : List Int) (cursorposition : Int)
    (height : Int) (width : Int) (smptopix : Int) (zoom : Int)
    (root : Option Nat) : TrackAbstract :=
  { name := name
    state := state
    selections := selections
    marks := marks
    cursorposition := cursorposition
    height := height
    width := width
    smptopix := smptopix
    zoom := zoom
    root := root }

/- Default slots (source lines 150-402).  Each Python method receives its
payload, emits it unchanged on the same-kind signal of `self`, and touches
no attribute; the embedding returns the unchanged receiver together with the
single emission performed. -/

def TrackAbstract.slo_mousePress (self : TrackAbstract) (ev : MouseEvt) :
    TrackAbstract × List Emission :=
  (self, [⟨EventKind.mousePress, ev⟩])

def TrackAbstract.slo_mouseRelease (self : TrackAbstract) (ev : MouseEvt) :
    TrackAbstract × List Emission :=
  (self, [⟨EventKind.mouseRelease, ev⟩])

def TrackAbstract.slo_mouseMove (self : TrackAbstract) (ev : MouseEvt) :
    TrackAbstract × List Emission :=
  (self, [⟨EventKind.mouseMove, ev⟩])

def TrackAbstract.slo_mouseDoubleClick (self : TrackAbstract) (ev : MouseEvt) :
    TrackAbstract × List Emission :=
  (self, [⟨EventKind.mouseDoubleClick, ev⟩])

def TrackAbstract.slo_keyEnter (self : TrackAbstract) (ev : KeyEvt) :
    TrackAbstract × List Emission :=
  (self, [⟨EventKind.keyEnter, ev⟩])

def TrackAbstract.slo_keyRelease (self : TrackAbstract) (ev : KeyEvt) :
    TrackAbstract × List Emission :=
  (self, [⟨EventKind.keyRelease, ev⟩])

def TrackAbstract.slo_playpause (self : TrackAbstract) :
    TrackAbstract × List Emission :=
  (self, [⟨EventKind.playpause, ()⟩])

def TrackAbstract.slo_zoomIn (self : TrackAbstract) :
    TrackAbstract × List Emission :=
  (self, [⟨EventKind.zoomIn, ()⟩])

def TrackAbstract.slo_zoomOut (self : TrackAbstract) :
    TrackAbstract × List Emission :=
  (self, [⟨EventKind.zoomOut, ()⟩])

def TrackAbstract.slo_analyze (self : TrackAbstract) :
    TrackAbstract × List Emission :=
  (self, [⟨EventKind.analyze, ()⟩])

def TrackAbstract.slo_finishSelection (self : TrackAbstract) :
    TrackAbstract × List Emission :=
  (self, [⟨EventKind.finishSelection, ()⟩])

def TrackAbstract.slo_editSelection (self : TrackAbstract) :
    TrackAbstract × List Emission :=
  (self, [⟨EventKind.editSelection, ()⟩])

def TrackAbstract.slo_selectionChange (self : TrackAbstract)
    (selectionName : String) (analysisType : String) :
    TrackAbstract × List Emission :=
  (self, [⟨EventKind.selectionChange, (selectionName, analysisType)⟩])

def TrackAbstract.slo_skipForward (self : TrackAbstract) :
    TrackAbstract × List Emission :=
  (self, [⟨EventKind.skipForward, ()⟩])

def TrackAbstract.slo_skipBackward (self : TrackAbstract) :
    TrackAbstract × List Emission :=
  (self, [⟨EventKind.skipBackward, ()⟩])

def TrackAbstract.slo_delete (self : TrackAbstract) :
    TrackAbstract × List Emission :=
  (self, [⟨EventKind.delete, ()⟩])

def TrackAbstract.slo_requestMark (self : TrackAbstract) :
    TrackAbstract × List Emission :=
  (self, [⟨EventKind.requestMark, ()⟩])

def TrackAbstract.slo_requestWaveform (self : TrackAbstract)
    (block : Int) (widthPreScaling : Int) (height : Int) :
    TrackAbstract × List Emission :=
  (self, [⟨EventKind.requestWaveform, (block, widthPreScaling, height)⟩])

def TrackAbstract.slo_viewChanged (self : TrackAbstract) (r : RectF) :
    TrackAbstract × List Emission :=
  (self, [⟨EventKind.viewChanged, r⟩])

def TrackAbstract.slo_redraw (self : TrackAbstract) (factor : FloatVal) :
    TrackAbstract × List Emission :=
  (self, [⟨EventKind.redraw, factor⟩])

def TrackAbstract.slo_startSelection (self : TrackAbstract) (ev : MouseEvt) :
    TrackAbstract × List Emission :=
  (self, [⟨EventKind.startSelection, ev⟩])

def TrackAbstract.slo_moveSelection (self : TrackAbstract) (ev : MouseEvt) :
    TrackAbstract × List Emission :=
  (self, [⟨EventKind.moveSelection, ev⟩])

def TrackAbstract.slo_endSelection (self : TrackAbstract) (ev : MouseEvt) :
    TrackAbstract × List Emission :=
  (self, [⟨EventKind.endSelection, ev⟩])

def TrackAbstract.slo_enableSelection (self : TrackAbstract) (b : Bool) :
    TrackAbstract × List Emission :=
  (self, [⟨EventKind.enableSelection, b⟩])

def TrackAbstract.slo_setSelection (self : TrackAbstract)
    (selectionName : String) (analysisType : String) (selection : SelDict)
    (state : String) : TrackAbstract × List Emission :=
  (self, [⟨EventKind.setSelection, (selectionName, analysisType, selection, state)⟩])

def TrackAbstract.slo_setMark (self : TrackAbstract) (smp : Int) :
    TrackAbstract × List Emission :=
  (self, [⟨EventKind.setMark, smp⟩])

def TrackAbstract.slo_addWaveform (self : TrackAbstract) (w : WaveformObj) :
    TrackAbstract × List Emission :=
  (self, [⟨EventKind.addWaveform, w⟩])

def TrackAbstract.slo_setView (self : TrackAbstract) (r : RectF) :
    TrackAbstract × List Emission :=
  (self, [⟨EventKind.setView, r⟩])

def TrackAbstract.slo_update (self : TrackAbstract) (pos : FloatVal) :
    TrackAbstract × List Emission :=
  (self, [⟨EventKind.update, pos⟩])

def TrackAbstract.slo_setPlaying (self : TrackAbstract) (b : Bool) :
    TrackAbstract × List Emission :=
  (self, [⟨EventKind.setPlaying, b⟩])

/-- Uniform view of the 30 slots: invoking the slot of kind `k` on `self`
with the payload the signal carried.  Each arm delegates to the individual
method above; multi-argument slots receive the components of the tupled
payload, exactly as the Qt connection passes the signal arguments through. -/
def slot (self : TrackAbstract) : (k : EventKind) → PayloadTy k → TrackAbstract × List Emission
  | .mousePress, p => self.slo_mousePress p
  | .mouseRelease, p => self.slo_mouseRelease p
  | .mouseMove, p => self.slo_mouseMove p
  | .mouseDoubleClick, p => self.slo_mouseDoubleClick p
  | .keyEnter, p => self.slo_keyEnter p
  | .keyRelease, p => self.slo_keyRelease p
  | .playpause, _ => self.slo_playpause
  | .zoomIn, _ => self.slo_zoomIn
  | .zoomOut, _ => self.slo_zoomOut
  | .analyze, _ => self.slo_analyze
  | .finishSelection, _ => self.slo_finishSelection
  | .editSelection, _ => self.slo_editSelection
  | .selectionChange, p => self.slo_selectionChange p.1 p.2
  | .skipForward, _ => self.slo_skipForward
  | .skipBackward, _ => self.slo_skipBackward
  | .delete, _ => self.slo_delete
  | .requestMark, _ => self.slo_requestMark
  | .requestWaveform, p => self.slo_requestWaveform p.1 p.2.1 p.2.2
  | .viewChanged, p => self.slo_viewChanged p
  | .redraw, p => self.slo_redraw p
  | .startSelection, p => self.slo_startSelection p
  | .moveSelection, p => self.slo_moveSelection p
  | .endSelection, p => self.slo_endSelection p
  | .enableSelection, p => self.slo_enableSelection p
  | .setSelection, p => self.slo_setSelection p.1 p.2.1 p.2.2.1 p.2.2.2
  | .setMark, p => self.slo_setMark p
  | .addWaveform, p => self.slo_addWaveform p
  | .setView, p => self.slo_setView p
  | .update, p => self.slo_update p
  | .setPlaying, p => self.slo_setPlaying p

/-- Every default slot returns the receiver unchanged and emits exactly the
received payload on the same-kind signal.  Proved by inspecting all 30 slots. -/
theorem slot_spec (self : TrackAbstract) (k : EventKind) (p : PayloadTy k) :
    slot self k p = (self, [⟨k, p⟩]) := by
  cases k <;> rfl

/-- One Qt connect statement of `__init__`: the signal of kind `kind` at
endpoint `sigAt` is connected to the same-kind slot at endpoint `slotAt`,
where the endpoints are the object under construction and its root. -/
inductive Endpoint where
  | selfE
  | rootE
  deriving DecidableEq

structure Connection where
  sigAt : Endpoint
  kind : EventKind
  slotAt : Endpoint
  deriving DecidableEq

/-- The connect statements executed by `__init__` (source lines 107-148),
in source order: nothing when no root was supplied; otherwise one
self-signal-to-root-slot connection per upward kind (lines 113-135)
followed by one root-signal-to-self-slot connection per downward kind
(lines 138-148). -/
def initConnections : Option Nat → List Connection
  | none => []
  | some _ =>
    [⟨Endpoint.selfE, EventKind.mousePress, Endpoint.rootE⟩,
     ⟨Endpoint.selfE, EventKind.mouseRelease, Endpoint.rootE⟩,
     ⟨Endpoint.selfE, EventKind.mouseMove, Endpoint.rootE⟩,
     ⟨Endpoint.selfE, EventKind.mouseDoubleClick, Endpoint.rootE⟩,
     ⟨Endpoint.selfE, EventKind.keyEnter, Endpoint.rootE⟩,
     ⟨Endpoint.selfE, EventKind.keyRelease, Endpoint.rootE⟩,
     ⟨Endpoint.selfE, EventKind.playpause, Endpoint.rootE⟩,
     ⟨Endpoint.selfE, EventKind.zoomIn, Endpoint.rootE⟩,
     ⟨Endpoint.selfE, EventKind.zoomOut, Endpoint.rootE⟩,
     ⟨Endpoint.selfE, EventKind.analyze, Endpoint.rootE⟩,
     ⟨Endpoint.selfE, EventKind.finishSelection, Endpoint.rootE⟩,
     ⟨Endpoint.selfE, EventKind.editSelection, Endpoint.rootE⟩,
     ⟨Endpoint.selfE, EventKind.selectionChange, Endpoint.rootE⟩,
     ⟨Endpoint.selfE, EventKind.skipForward, Endpoint.rootE⟩,
     ⟨Endpoint.selfE, EventKind.skipBackward, Endpoint.rootE⟩,
     ⟨Endpoint.selfE, EventKind.delete, Endpoint.rootE⟩,
     ⟨Endpoint.selfE, EventKind.requestMark, Endpoint.rootE⟩,
     ⟨Endpoint.selfE, EventKind.requestWaveform, Endpoint.rootE⟩,
     ⟨Endpoint.selfE, EventKind.viewChanged, Endpoint.rootE⟩,
     ⟨Endpoint.rootE, EventKind.redraw, Endpoint.selfE⟩,
     ⟨Endpoint.rootE, EventKind.startSelection, Endpoint.selfE⟩,
     ⟨Endpoint.rootE, EventKind.moveSelection, Endpoint.selfE⟩,
     ⟨Endpoint.rootE, EventKind.endSelection, Endpoint.selfE⟩,
     ⟨Endpoint.rootE, EventKind.enableSelection, Endpoint.selfE⟩,
     ⟨Endpoint.rootE, EventKind.setSelection, Endpoint.selfE⟩,
     ⟨Endpoint.rootE, EventKind.setMark, Endpoint.selfE⟩,
     ⟨Endpoint.rootE, EventKind.addWaveform, Endpoint.selfE⟩,
     ⟨Endpoint.rootE, EventKind.setView, Endpoint.selfE⟩,
     ⟨Endpoint.rootE, EventKind.update, Endpoint.selfE⟩,
     ⟨Endpoint.rootE, EventKind.setPlaying, Endpoint.selfE⟩]

/-- A delivery observed while events propagate through constructed nodes.
`relay n e` records that the default slot of kind `e.fst` ran on node `n`
with payload `e.snd`.  `topEmit e` records the emission of `e` at a node
with no root: `__init__` made no connection for that signal, so it is
observed exactly once by any external subscriber (for upward kinds, the
subscriber sitting on the root object).  `toChildren n e` and `toParent e`
record a signal emitted toward the other direction of the modelled path;
by `slot_spec` every TrackAbstract slot re-emits only the kind it received,
so these two constructors never occur in a run of this program and are kept
only to make the dispatch functions total. -/
inductive Delivery where
  | relay (n : TrackAbstract) (e : Emission)
  | topEmit (e : Emission)
  | toChildren (n : TrackAbstract) (e : Emission)
  | toParent (e : Emission)

/-- Synchronous Qt dispatch of a queue of emissions raised at a node whose
chain of ancestors (nearest first; the last entry is the tree root) is
`anc`; the chain encodes the connections that `__init__` created when each
node was constructed with the next as its root.  An upward emission at a
node with a root is connected to the same-kind slot of that root, which
runs synchronously and whose own emissions are dispatched one level higher
before the next queued emission is processed; at the node with no root the
emission has no connection from this class.  Node states are not threaded
through the recursion because every slot returns its receiver unchanged
(`slot_spec`). -/
def propagateUpList : List TrackAbstract → List Emission → List Delivery
  | [], [] => []
  | [], e :: es => Delivery.topEmit e :: propagateUpList [] es
  | _ :: _, [] => []
  | a :: rest, e :: es =>
    (if direction e.fst = Dir.up then
       Delivery.relay a e :: propagateUpList rest (slot a e.fst e.snd).2
     else
       [Delivery.toChildren a e])
      ++ propagateUpList (a :: rest) es
  termination_by anc es => (anc.length, es.length)

/-- Invoking the slot of kind `k` on a leaf node whose ancestor chain is
`anc` (the scenario of publishing an event at the bottom layer of a track):
the slot runs on the leaf and its emissions propagate along the chain. -/
def invokeUpAtLeaf (leaf : TrackAbstract) (anc : List TrackAbstract)
    (k : EventKind) (p : PayloadTy k) : List Delivery :=
  propagateUpList anc (slot leaf k p).2

/-- A tree of TrackAbstract nodes: each child in `children` was constructed
with this node as its root, in list order (Qt invokes the connected slots
of one signal in connection order). -/
inductive TrackTree where
  | node (self : TrackAbstract) (children : List TrackTree)

mutual

/-- Dispatch of a downward signal emission `e` at a node whose children
subtrees are `ts`: `__init__` of each child connected the signal to the
same-kind slot of the child, in construction order, so the slot of each
child runs (with its whole synchronous cascade) before the next sibling
is served. -/
def downEmit : List TrackTree → Emission → List Delivery
  | [], _ => []
  | TrackTree.node s c :: rest, e =>
    (Delivery.relay s e :: downList c (slot s e.fst e.snd).2) ++ downEmit rest e
  termination_by ts _ => (sizeOf ts, 0, 0)

/-- Dispatch of the queue of emissions a slot performed, at a node whose
children subtrees are `ts`: downward emissions are connected to the
children; upward emissions are connected to the same-kind slot of the
root object and recorded as `toParent` (unreachable for TrackAbstract
slots, which preserve the kind by `slot_spec`). -/
def downList : List TrackTree → List Emission → List Delivery
  | _, [] => []
  | ts, e :: es =>
    (if direction e.fst = Dir.down then downEmit ts e
     else [Delivery.toParent e]) ++ downList ts es
  termination_by ts es => (sizeOf ts, 1, es.length)

end

/-- Emitting the signal `e` at the root of a tree: for a downward kind the
connections made by the children route it into every subtree; an upward
kind at a node with no root has no connection from this class. -/
def rootBroadcast (t : TrackTree) (e : Emission) : List Delivery :=
  match t with
  | TrackTree.node _ c =>
    if direction e.fst = Dir.down then downEmit c e else [Delivery.topEmit e]

/-- The nodes of a forest in delivery order (preorder, siblings left to
right). -/
def forestNodes : List TrackTree → List TrackAbstract
  | [] => []
  | TrackTree.node s c :: rest => s :: (forestNodes c ++ forestNodes rest)

/-- Delivering a finite sequence of events to the slots of one node, in
order, collecting the signals the node emits (in emission order).  This is
the per-node picture of Qt dispatch: each delivery runs the slot of the
delivered kind synchronously before the next delivery is served. -/
def deliverSeq (self : TrackAbstract) : List Emission → TrackAbstract × List Emission
  | [] => (self, [])
  | e :: es =>
    let r1 := slot self e.fst e.snd
    let r2 := deliverSeq r1.1 es
    (r2.1, r1.2 ++ r2.2)

/- ----------------------------------------------------------------------
Selection state machine.

The concrete TrackSelection layer that implements the selection drag is not
part of the supplied sources; only its relay slots on TrackAbstract
(slo_startSelection, slo_moveSelection, slo_endSelection,
slo_enableSelection, source lines 310-349) are.  The machine itself is
therefore modelled from the specification, section 4.3.
---------------------------------------------------------------------- -/

/-- Modelled from the spec: the drag states of the SelectionStateMachine
(spec section 4.3); the source file for TrackSelection is not in src/.
`dragging` carries the recorded start sample and the provisional end
sample. -/
inductive SelState where
  | idle
  | dragging (startSample : Int) (endSample : Int)
  | locked
  deriving DecidableEq

/-- Modelled from the spec: a committed SelectionRecord
(name, analysisType, start and end samples, lock state), spec section 3. -/
structure SelectionRecord where
  name : String
  analysisType : String
  startSample : Int
  endSample : Int
  lockState : Bool
  deriving DecidableEq

/-- Modelled from the spec: the per-node selection state machine of spec
section 4.3: drag state, the enable gate (a boolean guard checked before
Start/Move/End), the current selection name and analysis type context, and
the last committed record. -/
structure SelectionMachine where
  st : SelState
  enabled : Bool
  selName : String
  analysisType : String
  committed : Option SelectionRecord
  deriving DecidableEq

/-- Modelled from the spec: the events driving the selection state machine
(spec sections 4.3 and 8; EndSelection carries no sample that the commit
uses, written End(-) in spec section 8). -/
inductive SelEvent where
  | startSelection (sample : Int)
  | moveSelection (sample : Int)
  | endSelection
  | enableSelection (b : Bool)
  | finishSelection
  | editSelection
  deriving DecidableEq

/-- Modelled from the spec: one transition of the selection state machine
(spec section 4.3), returning the successor machine and the list of
SetSelection records it emits.  Start/Move/End are rejected while the
enable gate is off; Move or End in idle is a no-op; Start while dragging
restarts the drag; End while dragging commits the record with the samples
normalised so that start is at most end, returns to idle and emits exactly
one SetSelection. -/
def SelectionMachine.step (m : SelectionMachine) :
    SelEvent → SelectionMachine × List SelectionRecord
  | SelEvent.startSelection s =>
    if m.enabled then
      match m.st with
      | SelState.idle => ({ m with st := SelState.dragging s s }, [])
      | SelState.dragging _ _ => ({ m with st := SelState.dragging s s }, [])
      | SelState.locked => (m, [])
    else (m, [])
  | SelEvent.moveSelection s =>
    if m.enabled then
      match m.st with
      | SelState.dragging a _ => ({ m with st := SelState.dragging a s }, [])
      | _ => (m, [])
    else (m, [])
  | SelEvent.endSelection =>
    if m.enabled then
      match m.st with
      | SelState.dragging a b =>
        let r : SelectionRecord :=
          ⟨m.selName, m.analysisType, min a b, max a b, false⟩
        ({ m with st := SelState.idle, committed := some r }, [r])
      | _ => (m, [])
    else (m, [])
  | SelEvent.enableSelection b =>
    if b then ({ m with enabled := true, st := SelState.idle }, [])
    else ({ m with enabled := false }, [])
  | SelEvent.finishSelection =>
    (match m.st with
     | SelState.idle => { m with st := SelState.locked }
     | _ => m, [])
  | SelEvent.editSelection =>
    (match m.st with
     | SelState.locked => { m with st := SelState.idle }
     | _ => m, [])

/-- Modelled from the spec: running the selection machine over a sequence
of events, collecting every emitted SetSelection record in order. -/
def SelectionMachine.run (m : SelectionMachine) :
    List SelEvent → SelectionMachine × List SelectionRecord
  | [] => (m, [])
  | e :: es =>
    let r1 := m.step e
    let r2 := r1.1.run es
    (r2.1, r1.2 ++ r2.2)

/- Concrete nodes used by the closed witness theorems. -/

def nodeA : TrackAbstract :=
  { name := "layerA", state := "unlocked", selections := ["sel1"],
    marks := [3], cursorposition := 0, height := 40, width := 640,
    smptopix := 256, zoom := 1, root := some 1 }

def nodeB : TrackAbstract :=
  { name := "layerB", state := "unlocked", selections := ["sel1"],
    marks := [], cursorposition := 7, height := 40, width := 640,
    smptopix := 256, zoom := 2, root := some 2 }

def nodeC : TrackAbstract :=
  { name := "manager", state := "locked", selections := [],
    marks := [11], cursorposition := 9, height := 80, width := 640,
    smptopix := 256, zoom := 1, root := none }

def sampleMachine : SelectionMachine :=
  { st := SelState.idle, enabled := true, selName := "sel1",
    analysisType := "Volume", committed := none }

def draggingMachine : SelectionMachine :=
  { st := SelState.dragging 10 5, enabled := true, selName := "sel1",
    analysisType := "Volume", committed := none }

/- ----------------------------------------------------------------------
Helper lemmas shared by the claim theorems.
---------------------------------------------------------------------- -/

/-- An upward emission propagating along the ancestor chain runs the
same-kind default slot of every ancestor once, in order, with the
unmodified payload, and finally surfaces at the node with no root. -/
theorem propagateUp_relay (k : EventKind) (p : PayloadTy k)
    (h : direction k = Dir.up) :
    ∀ anc : List TrackAbstract,
      propagateUpList anc [⟨k, p⟩]
        = List.map (fun a => Delivery.relay a ⟨k, p⟩) anc
            ++ [Delivery.topEmit ⟨k, p⟩] := by
  intro anc
  induction anc with
  | nil => simp [propagateUpList]
  | cons a rest ih =>
    simp only [propagateUpList, h, if_pos, slot_spec]
    simp [ih, propagateUpList]

/-- A downward emission broadcast into a forest runs the same-kind default
slot of every node of the forest exactly once, in preorder, with the
unmodified payload. -/
theorem downEmit_eq (k : EventKind) (p : PayloadTy k)
    (h : direction k = Dir.down) :
    ∀ ts : List TrackTree,
      downEmit ts ⟨k, p⟩
        = List.map (fun n => Delivery.relay n ⟨k, p⟩) (forestNodes ts)
  | [] => by simp [downEmit, forestNodes]
  | TrackTree.node s c :: rest => by
    have hc := downEmit_eq k p h c
    have hr := downEmit_eq k p h rest
    simp [downEmit, downList, forestNodes, slot_spec, h, hc, hr]
  termination_by ts => sizeOf ts

/-- Delivering any finite sequence of events to the slots of a node leaves
the node unchanged and re-emits exactly the same sequence. -/
theorem deliverSeq_id (self : TrackAbstract) (es : List Emission) :
    deliverSeq self es = (self, es) := by
  induction es with
  | nil => rfl
  | cons e rest ih => simp [deliverSeq, slot_spec, ih, Sigma.eta]

/- ----------------------------------------------------------------------
Claim theorems.
---------------------------------------------------------------------- -/

/-- C1: For every upward event kind and every chain of TrackAbstract nodes
of any depth (each node constructed with the next as its root), invoking
the same-kind slot at the leaf runs the default relay of every ancestor
exactly once with the unmodified payload, in order, and the payload
surfaces exactly once at the root signal, where the subscriber of the root
receives it; for every downward kind, emitting the signal at the root of a
tree runs the same-kind default slot of every descendant exactly once with
the unmodified payload, regardless of branching factor. -/
theorem thm_C1 :
    (∀ (leaf : TrackAbstract) (anc : List TrackAbstract) (k : EventKind)
        (p : PayloadTy k), direction k = Dir.up →
        invokeUpAtLeaf leaf anc k p
          = List.map (fun a => Delivery.relay a ⟨k, p⟩) anc
              ++ [Delivery.topEmit ⟨k, p⟩])
  ∧ (∀ (s : TrackAbstract) (c : List TrackTree) (k : EventKind)
        (p : PayloadTy k), direction k = Dir.down →
        rootBroadcast (TrackTree.node s c) ⟨k, p⟩
          = List.map (fun n => Delivery.relay n ⟨k, p⟩) (forestNodes c)) := by
  constructor
  · intro leaf anc k p h
    simp only [invokeUpAtLeaf, slot_spec]
    exact propagateUp_relay k p h anc
  · intro s c k p h
    simp [rootBroadcast, h, downEmit_eq k p h c]

/-- Witness for C1: a concrete chain of depth three and a concrete tree. -/
theorem thm_C1_witness :
    (direction EventKind.mousePress = Dir.up ∧
     invokeUpAtLeaf nodeA [nodeB, nodeC] EventKind.mousePress 7
       = List.map (fun a => Delivery.relay a ⟨EventKind.mousePress, 7⟩) [nodeB, nodeC]
           ++ [Delivery.topEmit ⟨EventKind.mousePress, 7⟩])
  ∧ (direction EventKind.redraw = Dir.down ∧
     rootBroadcast (TrackTree.node nodeC [TrackTree.node nodeB [TrackTree.node nodeA []]])
         ⟨EventKind.redraw, 3⟩
       = List.map (fun n => Delivery.relay n ⟨EventKind.redraw, 3⟩)
           (forestNodes [TrackTree.node nodeB [TrackTree.node nodeA []]])) :=
  ⟨⟨rfl, thm_C1.1 nodeA [nodeB, nodeC] EventKind.mousePress 7 rfl⟩,
   ⟨rfl, thm_C1.2 nodeC [TrackTree.node nodeB [TrackTree.node nodeA []]]
      EventKind.redraw 3 rfl⟩⟩

/-- C2: every default slot of TrackAbstract re-emits exactly the payload it
received, unchanged, on the same-kind signal (hence in the same direction),
and emits nothing else. -/
theorem thm_C2 (self : TrackAbstract) (k : EventKind) (p : PayloadTy k) :
    slot self k p = (self, [⟨k, p⟩])
  ∧ List.map (fun e => direction e.fst) (slot self k p).2 = [direction k] := by
  refine ⟨slot_spec self k p, ?_⟩
  simp [slot_spec]

/-- C3: construction establishes exactly one of two wiring configurations:
with a root, every upward signal of the new node is connected to the
same-kind slot of the root and every downward signal of the root is
connected to the same-kind slot of the new node, and no other connection
is made; without a root no connection is made at all. -/
theorem thm_C3 (r : Nat) :
    (∀ k : EventKind, direction k = Dir.up →
        Connection.mk Endpoint.selfE k Endpoint.rootE ∈ initConnections (some r))
  ∧ (∀ k : EventKind, direction k = Dir.down →
        Connection.mk Endpoint.rootE k Endpoint.selfE ∈ initConnections (some r))
  ∧ (∀ c : Connection, c ∈ initConnections (some r) →
        (direction c.kind = Dir.up ∧ c.sigAt = Endpoint.selfE ∧ c.slotAt = Endpoint.rootE)
      ∨ (direction c.kind = Dir.down ∧ c.sigAt = Endpoint.rootE ∧ c.slotAt = Endpoint.selfE))
  ∧ initConnections none = [] := by
  refine ⟨?_, ?_, ?_, rfl⟩
  · intro k hk
    cases k <;> first
      | exact absurd hk (by decide)
      | (simp only [initConnections]; decide)
  · intro k hk
    cases k <;> first
      | exact absurd hk (by decide)
      | (simp only [initConnections]; decide)
  · intro c hc
    simp only [initConnections] at hc
    fin_cases hc <;> decide

/-- Witness for C3: one upward and one downward connection concretely. -/
theorem thm_C3_witness :
    (direction EventKind.mousePress = Dir.up ∧
      Connection.mk Endpoint.selfE EventKind.mousePress Endpoint.rootE
        ∈ initConnections (some 0))
  ∧ (direction EventKind.redraw = Dir.down ∧
      Connection.mk Endpoint.rootE EventKind.redraw Endpoint.selfE
        ∈ initConnections (some 0)) :=
  ⟨⟨rfl, (thm_C3 0).1 EventKind.mousePress rfl⟩,
   ⟨rfl, (thm_C3 0).2.1 EventKind.redraw rfl⟩⟩

/-- C4 counterexample: two constructions that differ only in the
analysis-type names produce identical objects, because `__init__` never
assigns the analysisTypes parameter to an attribute (source lines 96-105
store every other parameter); hence no attribute of the node equals the
supplied analysis-type names in both runs, refuting the claim as stated. -/
theorem thm_C4_counterexample :
    TrackAbstract.init "track1" "unlocked" ["sel1"] ["Volume"] [0] 0 100 640 256 1 none
      = TrackAbstract.init "track1" "unlocked" ["sel1"] ["Loudness"] [0] 0 100 640 256 1 none :=
  rfl

/-- C4 (amended): after construction the node holds every field of the
initial snapshot except the analysis-type names as an attribute equal to
the corresponding constructor argument; the analysisTypes argument is
accepted but not stored, so nodes constructed with different analysis-type
lists are identical. -/
theorem thm_C4 (name state : String) (selections analysisTypes analysisTypes2 : List String)
    (marks : List Int) (cursorposition height width smptopix zoom : Int)
    (root : Option Nat) :
    (TrackAbstract.init name state selections analysisTypes marks cursorposition
        height width smptopix zoom root).name = name
  ∧ (TrackAbstract.init name state selections analysisTypes marks cursorposition
        height width smptopix zoom root).state = state
  ∧ (TrackAbstract.init name state selections analysisTypes marks cursorposition
        height width smptopix zoom root).selections = selections
  ∧ (TrackAbstract.init name state selections analysisTypes marks cursorposition
        height width smptopix zoom root).marks = marks
  ∧ (TrackAbstract.init name state selections analysisTypes marks cursorposition
        height width smptopix zoom root).cursorposition = cursorposition
  ∧ (TrackAbstract.init name state selections analysisTypes marks cursorposition
        height width smptopix zoom root).height = height
  ∧ (TrackAbstract.init name state selections analysisTypes marks cursorposition
        height width smptopix zoom root).width = width
  ∧ (TrackAbstract.init name state selections analysisTypes marks cursorposition
        height width smptopix zoom root).smptopix = smptopix
  ∧ (TrackAbstract.init name state selections analysisTypes marks cursorposition
        height width smptopix zoom root).zoom = zoom
  ∧ (TrackAbstract.init name state selections analysisTypes marks cursorposition
        height width smptopix zoom root).root = root
  ∧ TrackAbstract.init name state selections analysisTypes marks cursorposition
        height width smptopix zoom root
      = TrackAbstract.init name state selections analysisTypes2 marks cursorposition
          height width smptopix zoom root :=
  ⟨rfl, rfl, rfl, rfl, rfl, rfl, rfl, rfl, rfl, rfl, rfl⟩

/-- C5: every default relay slot leaves every attribute of the node
unchanged: the receiver returned by any slot, on any payload, is the
receiver it was invoked on, field by field. -/
theorem thm_C5 (self : TrackAbstract) (k : EventKind) (p : PayloadTy k) :
    (slot self k p).1 = self
  ∧ (slot self k p).1.name = self.name
  ∧ (slot self k p).1.state = self.state
  ∧ (slot self k p).1.selections = self.selections
  ∧ (slot self k p).1.marks = self.marks
  ∧ (slot self k p).1.cursorposition = self.cursorposition
  ∧ (slot self k p).1.height = self.height
  ∧ (slot self k p).1.width = self.width
  ∧ (slot self k p).1.smptopix = self.smptopix
  ∧ (slot self k p).1.zoom = self.zoom
  ∧ (slot self k p).1.root = self.root := by
  simp [slot_spec]

/-- C6: relaying through a node never reorders or drops events: delivering
any finite sequence of events to the slots of one node makes the node emit
exactly the same sequence, in the same order, each event on its same-kind
(hence same-direction) signal. -/
theorem thm_C6 (self : TrackAbstract) (es : List Emission) :
    deliverSeq self es = (self, es) :=
  deliverSeq_id self es

/-- C7: the root link is fixed at construction and never changed: the
constructor stores exactly the supplied root argument, every slot returns
the node with the root field unchanged, and after delivering any sequence
of events the root field still equals the constructor argument. -/
theorem thm_C7 (name state : String) (selections analysisTypes : List String)
    (marks : List Int) (cursorposition height width smptopix zoom : Int)
    (r : Option Nat) (es : List Emission) (n : TrackAbstract) (k : EventKind)
    (p : PayloadTy k) :
    (TrackAbstract.init name state selections analysisTypes marks cursorposition
        height width smptopix zoom r).root = r
  ∧ (slot n k p).1.root = n.root
  ∧ (deliverSeq (TrackAbstract.init name state selections analysisTypes marks
        cursorposition height width smptopix zoom r) es).1.root = r := by
  refine ⟨rfl, ?_, ?_⟩
  · simp [slot_spec]
  · simp [deliverSeq_id]
    rfl

/-- C8: in the selection state machine (modelled from the spec, section
4.3, because TrackSelection is not among the supplied sources), an
EndSelection received while Dragging returns the machine to Idle and
commits a record whose samples are normalised so that start is at most end,
emitting exactly one SetSelection with the committed record; in particular
Start(10); Move(5); End commits (start=5, end=10). -/
theorem thm_C8 :
    (∀ (m : SelectionMachine) (a b : Int), m.enabled = true →
        m.st = SelState.dragging a b →
        (m.step SelEvent.endSelection).1.st = SelState.idle
      ∧ (m.step SelEvent.endSelection).1.committed
          = some ⟨m.selName, m.analysisType, min a b, max a b, false⟩
      ∧ (m.step SelEvent.endSelection).2
          = [⟨m.selName, m.analysisType, min a b, max a b, false⟩]
      ∧ min a b ≤ max a b)
  ∧ ((sampleMachine.run [SelEvent.startSelection 10, SelEvent.moveSelection 5,
        SelEvent.endSelection]).1.st = SelState.idle
    ∧ (sampleMachine.run [SelEvent.startSelection 10, SelEvent.moveSelection 5,
        SelEvent.endSelection]).1.committed = some ⟨"sel1", "Volume", 5, 10, false⟩
    ∧ (sampleMachine.run [SelEvent.startSelection 10, SelEvent.moveSelection 5,
        SelEvent.endSelection]).2 = [⟨"sel1", "Volume", 5, 10, false⟩]) := by
  constructor
  · intro m a b he hst
    refine ⟨?_, ?_, ?_, min_le_max⟩ <;> simp [SelectionMachine.step, he, hst]
  · exact ⟨by decide, by decide, by decide⟩

/-- Witness for C8: ending a concrete backward drag (start 10, provisional
end 5) commits the normalised record. -/
theorem thm_C8_witness :
    draggingMachine.enabled = true ∧ draggingMachine.st = SelState.dragging 10 5
  ∧ ((draggingMachine.step SelEvent.endSelection).1.st = SelState.idle
    ∧ (draggingMachine.step SelEvent.endSelection).1.committed
        = some ⟨"sel1", "Volume", min 10 5, max 10 5, false⟩
    ∧ (draggingMachine.step SelEvent.endSelection).2
        = [⟨"sel1", "Volume", min 10 5, max 10 5, false⟩]
    ∧ min (10 : Int) 5 ≤ max (10 : Int) 5) :=
  ⟨rfl, rfl, thm_C8.1 draggingMachine 10 5 rfl rfl⟩

/-- C9: a MoveSelection or EndSelection received while the selection state
machine (modelled from the spec, section 4.3) is Idle is a no-op: the
machine is unchanged (state stays Idle, nothing is committed) and no
SetSelection is emitted. -/
theorem thm_C9 (m : SelectionMachine) (s : Int) (h : m.st = SelState.idle) :
    m.step (SelEvent.moveSelection s) = (m, [])
  ∧ m.step SelEvent.endSelection = (m, []) := by
  constructor <;> simp [SelectionMachine.step, h]

/-- Witness for C9: a concrete idle machine ignores Move and End. -/
theorem thm_C9_witness :
    sampleMachine.st = SelState.idle
  ∧ (sampleMachine.step (SelEvent.moveSelection 4) = (sampleMachine, [])
    ∧ sampleMachine.step SelEvent.endSelection = (sampleMachine, [])) :=
  ⟨rfl, thm_C9 sampleMachine 4 rfl⟩

/-- C10: relaying is deterministic and independent of node state: two nodes
with arbitrary (possibly different) attribute values emit identical signal
lists for the same event kind and payload, so the output depends only on
the received payload. -/
theorem thm_C10 (n1 n2 : TrackAbstract) (k : EventKind) (p : PayloadTy k) :
    (slot n1 k p).2 = (slot n2 k p).2 := by
  simp [slot_spec]
